import Mathlib

/-!
Verification of the ferrisetw event-decoding core: a shallow embedding of
`src/schema.rs` (the `Schema` wrapper with its memoized field list) and
`src/ser.rs` (the serde serialization bridge: the wire-type resolver
`get_parser`, the per-field serialization handlers, and the event / header
serializers), together with proofs of the specified properties.
-/

set_option maxRecDepth 4000

namespace Ferrisetw

/-- Alias for `String`, usable inside namespaces where `String` would
resolve to a constructor of the same name. -/
abbrev Str : Type := String

/-- Wire in-types of a field, as enumerated exhaustively by the
`match in_type` in `PropertyInfo::get_parser` (`src/ser.rs`). -/
inductive TdhInType where
  | InTypeNull
  | InTypeUnicodeString
  | InTypeAnsiString
  | InTypeInt8
  | InTypeUInt8
  | InTypeInt16
  | InTypeUInt16
  | InTypeInt32
  | InTypeUInt32
  | InTypeInt64
  | InTypeUInt64
  | InTypeFloat
  | InTypeDouble
  | InTypeBoolean
  | InTypeBinary
  | InTypeGuid
  | InTypePointer
  | InTypeFileTime
  | InTypeSystemTime
  | InTypeSid
  | InTypeHexInt32
  | InTypeHexInt64
  | InTypeCountedString
deriving Repr, DecidableEq

/-- Modelled from the spec: `out_type` is an optional semantic refinement and
the code distinguishes only the IPv4 and IPv6 refinements (`src/ser.rs`
matches `OutTypeIpv4`, `OutTypeIpv6`, and a wildcard); every other out-type
value is collapsed into `OutTypeOther` with its numeric code. -/
inductive TdhOutType where
  | OutTypeIpv4
  | OutTypeIpv6
  | OutTypeOther (code : Nat)
deriving Repr, DecidableEq

/-- Modelled from the spec: the field-list parse error (`SchemaParseError` in
the spec taxonomy); `src/schema.rs` matches exhaustively against the single
variant `PropertyError::UnimplementedType(_)`. -/
inductive PropertyError where
  | UnimplementedType (which : String)
deriving Repr, DecidableEq

/-- The kind of one field: scalar (`Value`) or array, with its wire-type
pair (and resolved count for arrays), as destructured by the matches in
`src/ser.rs` (`PropertyInfo::Value { in_type, out_type, .. }` and
`PropertyInfo::Array { in_type, out_type, count, .. }`). -/
inductive PropertyInfo where
  | Value (in_type : TdhInType) (out_type : TdhOutType)
  | Array (in_type : TdhInType) (out_type : TdhOutType) (count : Nat)
deriving Repr, DecidableEq

/-- One field descriptor: a name plus its `PropertyInfo`, matching the uses
`prop.name` and `prop.info` in `src/ser.rs`. -/
structure Property where
  name : String
  info : PropertyInfo
deriving Repr, DecidableEq

/-- The decoding-strategy handlers, the `PropHandler` enum of `src/ser.rs`. -/
inductive PropHandler where
  | Null
  | Bool
  | Int8
  | UInt8
  | Int16
  | UInt16
  | Int32
  | UInt32
  | Int64
  | UInt64
  | Pointer
  | Float
  | Double
  | String
  | FileTime
  | SystemTime
  | Guid
  | Binary
  | IpAddr
  | ArrayInt16
  | ArrayUInt16
  | ArrayInt32
  | ArrayUInt32
  | ArrayInt64
  | ArrayUInt64
  | ArrayPointer
deriving Repr, DecidableEq

/-- The newtype `PropSer(PropHandler)` of `src/ser.rs`. -/
structure PropSer where
  handler : PropHandler
deriving Repr, DecidableEq

/-- The type resolver: `impl PropSerable for PropertyInfo { fn get_parser }`
in `src/ser.rs` (the Rust name is `get_parser`). For a scalar (`Value`) the
IPv4/IPv6 out-type refinement wins, otherwise the strategy is a function of
the in-type; for an `Array` only the in-type is consulted. -/
def PropertyInfo.getParser : PropertyInfo → Option PropSer
  | PropertyInfo.Value in_type out_type =>
    match out_type with
    | TdhOutType.OutTypeIpv4 => some (PropSer.mk PropHandler.IpAddr)
    | TdhOutType.OutTypeIpv6 => some (PropSer.mk PropHandler.IpAddr)
    | _ =>
      match in_type with
      | TdhInType.InTypeNull => some (PropSer.mk PropHandler.Null)
      | TdhInType.InTypeUnicodeString => some (PropSer.mk PropHandler.String)
      | TdhInType.InTypeAnsiString => some (PropSer.mk PropHandler.String)
      | TdhInType.InTypeInt8 => some (PropSer.mk PropHandler.Int8)
      | TdhInType.InTypeUInt8 => some (PropSer.mk PropHandler.UInt8)
      | TdhInType.InTypeInt16 => some (PropSer.mk PropHandler.Int16)
      | TdhInType.InTypeUInt16 => some (PropSer.mk PropHandler.UInt16)
      | TdhInType.InTypeInt32 => some (PropSer.mk PropHandler.Int32)
      | TdhInType.InTypeUInt32 => some (PropSer.mk PropHandler.UInt32)
      | TdhInType.InTypeInt64 => some (PropSer.mk PropHandler.Int64)
      | TdhInType.InTypeUInt64 => some (PropSer.mk PropHandler.UInt64)
      | TdhInType.InTypeFloat => some (PropSer.mk PropHandler.Float)
      | TdhInType.InTypeDouble => some (PropSer.mk PropHandler.Double)
      | TdhInType.InTypeBoolean => some (PropSer.mk PropHandler.Bool)
      | TdhInType.InTypeBinary => some (PropSer.mk PropHandler.Binary)
      | TdhInType.InTypeGuid => some (PropSer.mk PropHandler.Guid)
      | TdhInType.InTypePointer => some (PropSer.mk PropHandler.Pointer)
      | TdhInType.InTypeFileTime => some (PropSer.mk PropHandler.FileTime)
      | TdhInType.InTypeSystemTime => some (PropSer.mk PropHandler.SystemTime)
      | TdhInType.InTypeSid => some (PropSer.mk PropHandler.String)
      | TdhInType.InTypeHexInt32 => some (PropSer.mk PropHandler.Int32)
      | TdhInType.InTypeHexInt64 => some (PropSer.mk PropHandler.Int64)
      | TdhInType.InTypeCountedString => none
  | PropertyInfo.Array in_type _ _ =>
    match in_type with
    | TdhInType.InTypeInt16 => some (PropSer.mk PropHandler.ArrayInt16)
    | TdhInType.InTypeUInt16 => some (PropSer.mk PropHandler.ArrayUInt16)
    | TdhInType.InTypeInt32 => some (PropSer.mk PropHandler.ArrayInt32)
    | TdhInType.InTypeUInt32 => some (PropSer.mk PropHandler.ArrayUInt32)
    | TdhInType.InTypeInt64 => some (PropSer.mk PropHandler.ArrayInt64)
    | TdhInType.InTypeUInt64 => some (PropSer.mk PropHandler.ArrayUInt64)
    | TdhInType.InTypePointer => some (PropSer.mk PropHandler.ArrayPointer)
    | _ => none

/-- `impl PropSerable for Property` in `src/ser.rs`: delegate to the info. -/
def Property.getParser (p : Property) : Option PropSer :=
  p.info.getParser

/-- Modelled from the spec: `TraceEventInfo` (the native `TRACE_EVENT_INFO`
wrapper, not under `src/`) exposes the event identity triple used by
`impl PartialEq for Schema`, and a fallible iterator of properties
(`te_info.properties()`, each item `Result<Property, PropertyError>`)
consumed by `Schema::try_properties`. The iterator is modelled as the list
of its outcomes. -/
structure TraceEventInfo where
  event_id : Nat
  provider_guid : Nat
  event_version : Nat
  raw_props : List (Except PropertyError Property)
deriving Repr

/-- The `Schema` struct of `src/schema.rs`: a `TraceEventInfo` plus a
compute-once cell for the parsed property list. The `OnceCell` is modelled
as an `Option` holding the memoized result once initialized. -/
structure Schema where
  te_info : TraceEventInfo
  cached_properties : Option (Except PropertyError (List Property))
deriving Repr

/-- `Schema::new` (`src/schema.rs`): wraps the info with an empty cell. -/
def Schema.new (te_info : TraceEventInfo) : Schema :=
  Schema.mk te_info none

/-- The initialization closure inside `Schema::try_properties`
(`src/schema.rs`): push each parsed property in order, propagating the
first failure (`cache.push(property?)`). -/
def parseProps : List (Except PropertyError Property) → Except PropertyError (List Property)
  | [] => Except.ok []
  | Except.error e :: _ => Except.error e
  | Except.ok p :: rest => (parseProps rest).map (fun ps => p :: ps)

/-- `Schema::try_properties` (`src/schema.rs`): `get_or_init` on the cell,
returning the memoized result. The returned triple is (result, updated
schema, number of underlying parses performed by this call). -/
def Schema.try_properties (s : Schema) :
    Except PropertyError (List Property) × Schema × Nat :=
  match s.cached_properties with
  | some r => (r, s, 0)
  | none =>
    let r := parseProps s.te_info.raw_props
    (r, { s with cached_properties := some r }, 1)

/-- `Schema::properties` (`src/schema.rs`): the lenient accessor. On an
`UnimplementedType` parse failure it logs a diagnostic and returns the
empty slice; on success it returns the parsed list. The quadruple is
(returned list, whether a diagnostic was logged, updated schema, number of
underlying parses performed by this call). -/
def Schema.properties (s : Schema) : List Property × Bool × Schema × Nat :=
  match s.try_properties with
  | (Except.error (PropertyError.UnimplementedType _), s', n) => ([], true, s', n)
  | (Except.ok p, s', n) => (p, false, s', n)

/-- Which of the two field-list accessors a caller invokes. -/
inductive Accessor where
  | props
  | tryProps
deriving Repr, DecidableEq

/-- Perform one accessor call, keeping the updated schema and the number of
underlying parses that call performed. -/
def applyAccessor (a : Accessor) (s : Schema) : Schema × Nat :=
  match a with
  | Accessor.props =>
    match s.properties with
    | (_, _, s', n) => (s', n)
  | Accessor.tryProps =>
    match s.try_properties with
    | (_, s', n) => (s', n)

/-- Run a sequence of accessor calls, totalling the underlying parses. -/
def runCalls (s : Schema) : List Accessor → Schema × Nat
  | [] => (s, 0)
  | a :: rest =>
    let (s', n) := applyAccessor a s
    let (s'', m) := runCalls s' rest
    (s'', n + m)

/-- `impl PartialEq for Schema` (`src/schema.rs`): equality of the
(event id, provider GUID, event version) triple, nothing else. -/
def Schema.schemaEq (a b : Schema) : Bool :=
  decide (a.te_info.event_id = b.te_info.event_id)
    && decide (a.te_info.provider_guid = b.te_info.provider_guid)
    && decide (a.te_info.event_version = b.te_info.event_version)

/-- Modelled from the spec: the raw event buffer carries the originating
event's recorded process bitness, exposed as `record.pointer_size()` (4 or
8 bytes); this is the only part of `EventRecord` the serialization handlers
in `src/ser.rs` read. -/
structure EventRecord where
  pointer_size : Nat
deriving Repr, DecidableEq

/-- The concrete representation `T` a handler requests from
`Parser::try_parse::<T>` in `src/ser.rs` (one tag per Rust type appearing
in a `prop_ser_type!` invocation). -/
inductive ReqType where
  | rBool
  | rI8
  | rU8
  | rI16
  | rU16
  | rI32
  | rU32
  | rI64
  | rU64
  | rF32
  | rF64
  | rString
  | rBinary
  | rIpAddr
  | rFileTime
  | rSystemTime
  | rGuid
  | rArrI16
  | rArrU16
  | rArrI32
  | rArrU32
  | rArrI64
  | rArrU64
deriving Repr, DecidableEq

/-- `PropHandler::ser` (`src/ser.rs`): serialize one property into a map
entry. The field accessor (`Parser::try_parse`, not under `src/`) is passed
as the fallible oracle `tryParse` from the requested representation tag to
an extracted value; each `prop_ser_type!` expansion parses at the handler's
type and emits `(name, value)`, the `Null` handler emits `(name, none)`
without parsing, and the pointer handlers pick the 32-bit or 64-bit
representation from `record.pointer_size()`. -/
def PropHandler.ser {V : Type} (h : PropHandler) (record : EventRecord)
    (name : Str) (tryParse : ReqType → Except Str V) :
    Except Str (Str × Option V) :=
  match h with
  | PropHandler.Bool => (tryParse ReqType.rBool).map (fun v => (name, some v))
  | PropHandler.Int8 => (tryParse ReqType.rI8).map (fun v => (name, some v))
  | PropHandler.UInt8 => (tryParse ReqType.rU8).map (fun v => (name, some v))
  | PropHandler.Int16 => (tryParse ReqType.rI16).map (fun v => (name, some v))
  | PropHandler.UInt16 => (tryParse ReqType.rU16).map (fun v => (name, some v))
  | PropHandler.Int32 => (tryParse ReqType.rI32).map (fun v => (name, some v))
  | PropHandler.UInt32 => (tryParse ReqType.rU32).map (fun v => (name, some v))
  | PropHandler.Int64 => (tryParse ReqType.rI64).map (fun v => (name, some v))
  | PropHandler.UInt64 => (tryParse ReqType.rU64).map (fun v => (name, some v))
  | PropHandler.Float => (tryParse ReqType.rF32).map (fun v => (name, some v))
  | PropHandler.Double => (tryParse ReqType.rF64).map (fun v => (name, some v))
  | PropHandler.String => (tryParse ReqType.rString).map (fun v => (name, some v))
  | PropHandler.Binary => (tryParse ReqType.rBinary).map (fun v => (name, some v))
  | PropHandler.IpAddr => (tryParse ReqType.rIpAddr).map (fun v => (name, some v))
  | PropHandler.FileTime => (tryParse ReqType.rFileTime).map (fun v => (name, some v))
  | PropHandler.SystemTime => (tryParse ReqType.rSystemTime).map (fun v => (name, some v))
  | PropHandler.ArrayInt16 => (tryParse ReqType.rArrI16).map (fun v => (name, some v))
  | PropHandler.ArrayUInt16 => (tryParse ReqType.rArrU16).map (fun v => (name, some v))
  | PropHandler.ArrayInt32 => (tryParse ReqType.rArrI32).map (fun v => (name, some v))
  | PropHandler.ArrayUInt32 => (tryParse ReqType.rArrU32).map (fun v => (name, some v))
  | PropHandler.ArrayInt64 => (tryParse ReqType.rArrI64).map (fun v => (name, some v))
  | PropHandler.ArrayUInt64 => (tryParse ReqType.rArrU64).map (fun v => (name, some v))
  | PropHandler.Null => Except.ok (name, none)
  | PropHandler.Pointer =>
    if record.pointer_size = 4 then
      (tryParse ReqType.rU32).map (fun v => (name, some v))
    else
      (tryParse ReqType.rU64).map (fun v => (name, some v))
  | PropHandler.ArrayPointer =>
    if record.pointer_size = 4 then
      (tryParse ReqType.rArrU32).map (fun v => (name, some v))
    else
      (tryParse ReqType.rArrU64).map (fun v => (name, some v))
  | PropHandler.Guid => (tryParse ReqType.rGuid).map (fun v => (name, some v))

/-- `EventSerializerOptions` (`src/ser.rs`). -/
structure EventSerializerOptions where
  include_schema : Bool
  include_header : Bool
  include_extended_data : Bool
  fail_unimplemented : Bool
deriving Repr, DecidableEq

/-- `impl Default for EventSerializerOptions` (`src/ser.rs`). -/
def EventSerializerOptions.default : EventSerializerOptions :=
  EventSerializerOptions.mk true true false false

/-- The error message built by `EventSer::serialize` (`src/ser.rs`) for a
property with no resolvable handler when `fail_unimplemented` is set:
`"not implemented {name} in_type: {:?} out_type: {:?}"`, plus
`" count: {:?}"` for an array. -/
def unimplMsg (p : Property) : String :=
  match p.info with
  | PropertyInfo.Value it ot =>
    "not implemented " ++ p.name ++
      (" in_type: " ++ reprStr it ++ " out_type: " ++ reprStr ot)
  | PropertyInfo.Array it ot c =>
    "not implemented " ++ p.name ++
      (" in_type: " ++ reprStr it ++ " out_type: " ++ reprStr ot ++
        " count: " ++ reprStr c)

/-- Modelled from the spec: the message `serde::ser::Error::custom` builds
from a `PropertyError` (its `Display`, not under `src/`). -/
def PropertyError.msg : PropertyError → String
  | PropertyError.UnimplementedType which => "unimplemented type: " ++ which

/-- The first loop of `EventSer::serialize` (`src/ser.rs`): walk the
properties, counting those with a resolvable handler; at a property with
none, fail with `unimplMsg` when `fail_unimplemented` is set, otherwise
skip it. -/
def countResolvable (props : List Property) (fail_unimplemented : Bool) :
    Except String Nat :=
  match props with
  | [] => Except.ok 0
  | p :: rest =>
    if p.getParser.isSome then
      (countResolvable rest fail_unimplemented).map (fun n => n + 1)
    else if fail_unimplemented then
      Except.error (unimplMsg p)
    else
      countResolvable rest fail_unimplemented

/-- The second loop of `EventSer::serialize` (`src/ser.rs`): emit one map
entry per property with a resolvable handler, via `PropHandler::ser`. -/
def serEntries {V : Type} (record : EventRecord) (props : List Property)
    (tryParse : String → ReqType → Except String V) :
    Except String (List (String × Option V)) :=
  match props with
  | [] => Except.ok []
  | p :: rest =>
    match p.getParser with
    | none => serEntries record rest tryParse
    | some s =>
      (s.handler.ser record p.name (tryParse p.name)).bind (fun e =>
        (serEntries record rest tryParse).map (fun es => e :: es))

/-- The map produced by `serializer.serialize_map(Some(len))` followed by
the emitted entries: the element count declared up front, and the streamed
entries. -/
structure SerializedMap (V : Type) where
  declared_len : Nat
  entries : List (String × Option V)
deriving Repr

/-- `impl Serialize for EventSer` (`src/ser.rs`): the event-fields block.
`propsResult` is the outcome of `schema.try_properties()`; its error is
propagated when `fail_unimplemented` is set and replaced by the empty list
otherwise; then the counting loop fixes the declared element count before
any entry is streamed, and the emission loop streams the entries. -/
def EventSer.serialize {V : Type} (record : EventRecord)
    (propsResult : Except PropertyError (List Property))
    (options : EventSerializerOptions)
    (tryParse : String → ReqType → Except String V) :
    Except String (SerializedMap V) :=
  (match propsResult with
    | Except.error e =>
      if options.fail_unimplemented then Except.error e.msg else Except.ok []
    | Except.ok p => Except.ok p).bind (fun props =>
  (countResolvable props options.fail_unimplemented).bind (fun len =>
  (serEntries record props tryParse).map (fun entries =>
  SerializedMap.mk len entries)))

/-- `EVENT_DESCRIPTOR` as used by `DescriptorSer::serialize`
(`src/ser.rs`): the raw descriptor's numeric fields. Modelled from the
spec: a raw descriptor record with numeric id/version/channel/level/
opcode/task/keyword fields (the struct itself comes from the windows
crate, not under `src/`). -/
structure EVENT_DESCRIPTOR where
  Id : Nat
  Version : Nat
  Channel : Nat
  Level : Nat
  Opcode : Nat
  Task : Nat
  Keyword : Nat
deriving Repr, DecidableEq

/-- `EVENT_HEADER` as used by `HeaderSer::serialize` (`src/ser.rs`).
Modelled from the spec: header metadata of the raw event buffer (the
struct itself comes from the windows crate, not under `src/`); it carries
both a `Flags` and an `EventProperty` field, the two 128-bit identifiers
(modelled as opaque numbers), a timestamp, and the descriptor. -/
structure EVENT_HEADER where
  Size : Nat
  HeaderType : Nat
  Flags : Nat
  EventProperty : Nat
  ThreadId : Nat
  ProcessId : Nat
  TimeStamp : Nat
  ProviderId : Nat
  ActivityId : Nat
  EventDescriptor : EVENT_DESCRIPTOR
deriving Repr, DecidableEq

/-- A value emitted into the header block: a plain number, a
`FileTime::from_quad` timestamp, a GUID rendered via `GUIDExt`, or the
nested descriptor struct. -/
inductive HeaderValue where
  | num (n : Nat)
  | time (quad : Nat)
  | guid (g : Nat)
  | descriptor (fields : List (String × Nat))
deriving Repr, DecidableEq

/-- `DescriptorSer::serialize` (`src/ser.rs`): the seven named descriptor
fields, in order. -/
def DescriptorSer.serialize (d : EVENT_DESCRIPTOR) : List (String × Nat) :=
  [("Id", d.Id), ("Version", d.Version), ("Channel", d.Channel),
    ("Level", d.Level), ("Opcode", d.Opcode), ("Task", d.Task),
    ("Keyword", d.Keyword)]

/-- `HeaderSer::serialize` (`src/ser.rs`): the ten named header fields, in
order. Note the `"EventProperty"` entry is written from `header.Flags`,
exactly as in the source. -/
def HeaderSer.serialize (h : EVENT_HEADER) : List (String × HeaderValue) :=
  [("Size", HeaderValue.num h.Size),
    ("HeaderType", HeaderValue.num h.HeaderType),
    ("Flags", HeaderValue.num h.Flags),
    ("EventProperty", HeaderValue.num h.Flags),
    ("ThreadId", HeaderValue.num h.ThreadId),
    ("ProcessId", HeaderValue.num h.ProcessId),
    ("TimeStamp", HeaderValue.time h.TimeStamp),
    ("ProviderId", HeaderValue.guid h.ProviderId),
    ("ActivityId", HeaderValue.guid h.ActivityId),
    ("Descriptor", HeaderValue.descriptor (DescriptorSer.serialize h.EventDescriptor))]

/-- When the oracle succeeds, mapping it into an entry succeeds. -/
theorem map_entry_ok {V W : Type} (e : Except String V) (name : String)
    (g : V → W) (hf : ∃ v, e = Except.ok v) :
    ∃ w, e.map (fun v => (name, g v)) = Except.ok (name, w) := by
  obtain ⟨v, hv⟩ := hf
  exact ⟨g v, by rw [hv]; rfl⟩

/-- When the field accessor succeeds at every requested representation,
every handler serializes to an entry keyed by the field's name. -/
theorem ser_ok {V : Type} (h : PropHandler) (record : EventRecord)
    (name : String) (f : ReqType → Except String V)
    (hf : ∀ r, ∃ v, f r = Except.ok v) :
    ∃ w, h.ser record name f = Except.ok (name, w) := by
  cases h <;> simp only [PropHandler.ser] <;>
    first
      | exact ⟨none, rfl⟩
      | exact map_entry_ok _ _ _ (hf _)
      | (split <;> exact map_entry_ok _ _ _ (hf _))

/-- When the field accessor always succeeds, the emission loop succeeds and
emits exactly the resolvable properties' names, in declared order. -/
theorem serEntries_ok {V : Type} (record : EventRecord)
    (props : List Property) (tryParse : String → ReqType → Except String V)
    (hok : ∀ n r, ∃ v, tryParse n r = Except.ok v) :
    ∃ es, serEntries record props tryParse = Except.ok es ∧
      es.map Prod.fst
        = (props.filter (fun p => p.getParser.isSome)).map Property.name := by
  induction props with
  | nil => exact ⟨[], rfl, rfl⟩
  | cons p rest ih =>
    obtain ⟨es, hes, hmap⟩ := ih
    cases hp : p.getParser with
    | none =>
      refine ⟨es, ?_, ?_⟩
      · simp only [serEntries, hp, hes]
      · simp [List.filter_cons, hp, hmap]
    | some s =>
      obtain ⟨w, hw⟩ := ser_ok s.handler record p.name (tryParse p.name) (hok p.name)
      refine ⟨(p.name, w) :: es, ?_, ?_⟩
      · simp only [serEntries, hp, hw, hes, Except.bind, Except.map]
      · simp [List.filter_cons, hp, hmap]

/-- With `fail_unimplemented` unset, the counting loop never fails and
returns the number of resolvable properties. -/
theorem countResolvable_false_ok (props : List Property) :
    countResolvable props false
      = Except.ok ((props.filter (fun p => p.getParser.isSome)).length) := by
  induction props with
  | nil => rfl
  | cons p rest ih =>
    cases hp : p.getParser.isSome with
    | true => simp [countResolvable, hp, ih, List.filter_cons, Except.map]
    | false => simp [countResolvable, hp, ih, List.filter_cons]

/-- With `fail_unimplemented` set, the counting loop fails at the first
property with no resolvable handler, with its `unimplMsg`. -/
theorem countResolvable_true_error (pre post : List Property) (p : Property)
    (hpre : ∀ q ∈ pre, q.getParser.isSome = true)
    (hp : p.getParser = none) :
    countResolvable (pre ++ p :: post) true = Except.error (unimplMsg p) := by
  induction pre with
  | nil => simp [countResolvable, hp]
  | cons q rest ih =>
    have hq : q.getParser.isSome = true := hpre q (List.mem_cons_self q rest)
    have ih' := ih (fun x hx => hpre x (List.mem_cons_of_mem q hx))
    simp [countResolvable, hq, ih', Except.map]

/-- A call to either accessor on a schema whose cell is already initialized
returns the schema unchanged and performs no parse. -/
theorem applyAccessor_of_cached (a : Accessor) (s : Schema)
    (r : Except PropertyError (List Property))
    (h : s.cached_properties = some r) : applyAccessor a s = (s, 0) := by
  cases a with
  | props =>
    rcases r with e | l
    · rcases e with ⟨w⟩
      simp [applyAccessor, Schema.properties, Schema.try_properties, h]
    · simp [applyAccessor, Schema.properties, Schema.try_properties, h]
  | tryProps => simp [applyAccessor, Schema.try_properties, h]

/-- A call to either accessor on a schema whose cell is empty performs
exactly one parse and initializes the cell with the parse outcome. -/
theorem applyAccessor_of_fresh (a : Accessor) (s : Schema)
    (h : s.cached_properties = none) :
    applyAccessor a s
      = ({ s with cached_properties := some (parseProps s.te_info.raw_props) }, 1) := by
  cases a with
  | props =>
    cases he : parseProps s.te_info.raw_props with
    | error e =>
      rcases e with ⟨w⟩
      simp [applyAccessor, Schema.properties, Schema.try_properties, h, he]
    | ok l => simp [applyAccessor, Schema.properties, Schema.try_properties, h, he]
  | tryProps => simp [applyAccessor, Schema.try_properties, h]

/-- Any sequence of accessor calls on an initialized schema performs no
parse and leaves the schema unchanged. -/
theorem runCalls_of_cached (s : Schema)
    (r : Except PropertyError (List Property))
    (h : s.cached_properties = some r) (calls : List Accessor) :
    runCalls s calls = (s, 0) := by
  induction calls with
  | nil => rfl
  | cons a rest ih => simp [runCalls, applyAccessor_of_cached a s r h, ih]

/-- C3 counterexample: an array field descriptor with `out_type` IPv4 does
not resolve to the IP-address strategy — the array branch of `get_parser`
ignores `out_type` — so the claim fails for array-kind descriptors. -/
theorem C3_array_out_type_ignored_counterexample :
    PropertyInfo.getParser
        (PropertyInfo.Array TdhInType.InTypeUInt32 TdhOutType.OutTypeIpv4 1)
      = some (PropSer.mk PropHandler.ArrayUInt32)
    ∧ PropSer.mk PropHandler.ArrayUInt32 ≠ PropSer.mk PropHandler.IpAddr := by
  decide

/-- C3 (amended): for every scalar (`Value`) field descriptor whose
`out_type` is IPv4 or IPv6, `get_parser` returns the IP-address strategy
regardless of `in_type`; in particular a scalar `in_type=UInt32,
out_type=IPv4` field resolves to the IP-address strategy, not the
32-bit-integer strategy. -/
theorem C3_scalar_ip_out_type_precedence (it : TdhInType) :
    PropertyInfo.getParser (PropertyInfo.Value it TdhOutType.OutTypeIpv4)
        = some (PropSer.mk PropHandler.IpAddr)
    ∧ PropertyInfo.getParser (PropertyInfo.Value it TdhOutType.OutTypeIpv6)
        = some (PropSer.mk PropHandler.IpAddr)
    ∧ PropSer.mk PropHandler.IpAddr ≠ PropSer.mk PropHandler.UInt32 := by
  cases it <;> exact ⟨rfl, rfl, by decide⟩

/-- C4 counterexample: an array of 8-bit integers has a fixed-width
8/16/32/64-bit integer `in_type`, yet `get_parser` returns no strategy for
it (the array branch recognizes only 16/32/64-bit integers and pointer),
so the claim as stated fails at 8-bit array in-types. -/
theorem C4_array_int8_no_strategy_counterexample :
    PropertyInfo.getParser
        (PropertyInfo.Array TdhInType.InTypeInt8 (TdhOutType.OutTypeOther 0) 1) = none
    ∧ PropertyInfo.getParser
        (PropertyInfo.Array TdhInType.InTypeUInt8 (TdhOutType.OutTypeOther 0) 1) = none := by
  decide

/-- C4 (amended): for every array-kind field descriptor, `get_parser`
returns a strategy exactly when the `in_type` is a fixed-width 16/32/64-bit
signed or unsigned integer or pointer, and returns no strategy for every
other array `in_type` (notably 8-bit integers, string, GUID, binary). -/
theorem C4_array_strategy_iff_wide_int_or_pointer (it : TdhInType)
    (ot : TdhOutType) (c : Nat) :
    (PropertyInfo.getParser (PropertyInfo.Array it ot c)).isSome = true
      ↔ (it = TdhInType.InTypeInt16 ∨ it = TdhInType.InTypeUInt16
          ∨ it = TdhInType.InTypeInt32 ∨ it = TdhInType.InTypeUInt32
          ∨ it = TdhInType.InTypeInt64 ∨ it = TdhInType.InTypeUInt64
          ∨ it = TdhInType.InTypePointer) := by
  cases it <;> simp [PropertyInfo.getParser]

/-- C7: the `Pointer` and `ArrayPointer` handlers request the 32-bit
unsigned representation exactly when the originating event record's
recorded pointer size is 4 bytes, and the 64-bit unsigned representation
when it is 8 bytes; the dispatch reads only `record.pointer_size()`, so it
depends on the event's recorded bitness and on nothing else (in particular
not on the decoding process's bitness, which is not even an input). -/
theorem C7_pointer_bitness_from_record {V : Type} (record : EventRecord)
    (name : String) (tryParse : ReqType → Except String V) :
    (record.pointer_size = 4 →
      PropHandler.Pointer.ser record name tryParse
          = (tryParse ReqType.rU32).map (fun v => (name, some v))
      ∧ PropHandler.ArrayPointer.ser record name tryParse
          = (tryParse ReqType.rArrU32).map (fun v => (name, some v)))
    ∧ (record.pointer_size = 8 →
      PropHandler.Pointer.ser record name tryParse
          = (tryParse ReqType.rU64).map (fun v => (name, some v))
      ∧ PropHandler.ArrayPointer.ser record name tryParse
          = (tryParse ReqType.rArrU64).map (fun v => (name, some v))) := by
  constructor
  · intro h4
    constructor <;> simp [PropHandler.ser, h4]
  · intro h8
    constructor <;> simp [PropHandler.ser, h8]

/-- Witness for C7 at pointer sizes 4 and 8, with an oracle that returns
the requested representation tag itself. -/
theorem C7_pointer_bitness_from_record_witness :
    PropHandler.Pointer.ser (EventRecord.mk 4) ("p") (fun r => Except.ok r)
        = Except.ok (("p"), some ReqType.rU32)
    ∧ PropHandler.Pointer.ser (EventRecord.mk 8) ("p") (fun r => Except.ok r)
        = Except.ok (("p"), some ReqType.rU64) :=
  ⟨(((C7_pointer_bitness_from_record (EventRecord.mk 4) ("p")
      (fun r => Except.ok r)).1 rfl).1).trans rfl,
    (((C7_pointer_bitness_from_record (EventRecord.mk 8) ("p")
      (fun r => Except.ok r)).2 rfl).1).trans rfl⟩

/-- C8: two schemas compare equal exactly when their event id, provider
identifier and event version all match; the comparison is a function of
those three header values alone — rebuilding both schemas with arbitrary
raw field lists and arbitrary cache contents leaves it unchanged, so it
never triggers (or depends on) field-list parsing. -/
theorem C8_schema_eq_identity_triple (a b : Schema) :
    (Schema.schemaEq a b = true
      ↔ (a.te_info.event_id = b.te_info.event_id
          ∧ a.te_info.provider_guid = b.te_info.provider_guid
          ∧ a.te_info.event_version = b.te_info.event_version))
    ∧ (∀ ra rb ca cb,
        Schema.schemaEq
          (Schema.mk (TraceEventInfo.mk a.te_info.event_id
            a.te_info.provider_guid a.te_info.event_version ra) ca)
          (Schema.mk (TraceEventInfo.mk b.te_info.event_id
            b.te_info.provider_guid b.te_info.event_version rb) cb)
        = Schema.schemaEq a b) := by
  constructor
  · simp [Schema.schemaEq, and_assoc]
  · intro ra rb ca cb
    rfl

/-- C9: for scalar field descriptors with a non-IP `out_type`,
security-identifier resolves to the text-string strategy (the same handler
as unicode strings), hex-32 and hex-64 resolve to the signed 32-bit and
64-bit integer strategies (the same handlers as their decimal
counterparts), and counted-string resolves to no strategy. -/
theorem C9_scalar_sid_hex_counted_mapping (ot : TdhOutType)
    (h4 : ot ≠ TdhOutType.OutTypeIpv4) (h6 : ot ≠ TdhOutType.OutTypeIpv6) :
    PropertyInfo.getParser (PropertyInfo.Value TdhInType.InTypeSid ot)
        = some (PropSer.mk PropHandler.String)
    ∧ PropertyInfo.getParser (PropertyInfo.Value TdhInType.InTypeSid ot)
        = PropertyInfo.getParser (PropertyInfo.Value TdhInType.InTypeUnicodeString ot)
    ∧ PropertyInfo.getParser (PropertyInfo.Value TdhInType.InTypeHexInt32 ot)
        = some (PropSer.mk PropHandler.Int32)
    ∧ PropertyInfo.getParser (PropertyInfo.Value TdhInType.InTypeHexInt32 ot)
        = PropertyInfo.getParser (PropertyInfo.Value TdhInType.InTypeInt32 ot)
    ∧ PropertyInfo.getParser (PropertyInfo.Value TdhInType.InTypeHexInt64 ot)
        = some (PropSer.mk PropHandler.Int64)
    ∧ PropertyInfo.getParser (PropertyInfo.Value TdhInType.InTypeHexInt64 ot)
        = PropertyInfo.getParser (PropertyInfo.Value TdhInType.InTypeInt64 ot)
    ∧ PropertyInfo.getParser (PropertyInfo.Value TdhInType.InTypeCountedString ot)
        = none := by
  cases ot with
  | OutTypeIpv4 => exact absurd rfl h4
  | OutTypeIpv6 => exact absurd rfl h6
  | OutTypeOther code => exact ⟨rfl, rfl, rfl, rfl, rfl, rfl, rfl⟩

/-- Witness for C9 at the concrete non-IP out-type code 0. -/
theorem C9_scalar_sid_hex_counted_mapping_witness :
    PropertyInfo.getParser
        (PropertyInfo.Value TdhInType.InTypeSid (TdhOutType.OutTypeOther 0))
        = some (PropSer.mk PropHandler.String)
    ∧ PropertyInfo.getParser
        (PropertyInfo.Value TdhInType.InTypeCountedString (TdhOutType.OutTypeOther 0))
        = none :=
  ⟨(C9_scalar_sid_hex_counted_mapping (TdhOutType.OutTypeOther 0)
      (by decide) (by decide)).1,
    (C9_scalar_sid_hex_counted_mapping (TdhOutType.OutTypeOther 0)
      (by decide) (by decide)).2.2.2.2.2.2⟩

/-- C10: the header block's `"EventProperty"` entry is written from the
header's `Flags` field: it always equals the `"Flags"` entry, and the
serialized header is unchanged under any modification of the header's
actual `EventProperty` value, so that value never appears in the output. -/
theorem C10_event_property_serialized_from_flags (h : EVENT_HEADER) :
    List.lookup ("EventProperty") (HeaderSer.serialize h)
        = some (HeaderValue.num h.Flags)
    ∧ List.lookup ("EventProperty") (HeaderSer.serialize h)
        = List.lookup ("Flags") (HeaderSer.serialize h)
    ∧ ∀ x, HeaderSer.serialize
        (EVENT_HEADER.mk h.Size h.HeaderType h.Flags x h.ThreadId
          h.ProcessId h.TimeStamp h.ProviderId h.ActivityId h.EventDescriptor)
        = HeaderSer.serialize h := by
  refine ⟨?_, ?_, fun x => rfl⟩ <;> simp [HeaderSer.serialize, List.lookup]

/-- C1: over a field list with at least one resolvable and at least one
unresolvable field, the event-fields block with `fail_unimplemented` unset
succeeds whenever the field accessor succeeds, emits exactly one map entry
per resolvable field, keyed by the field's name and in declared order
(unresolvable fields are omitted), and the element count declared before
any entry is streamed equals the number of resolvable fields. -/
theorem C1_fields_block_skips_unresolvable {V : Type} (record : EventRecord)
    (props : List Property) (options : EventSerializerOptions)
    (tryParse : String → ReqType → Except String V)
    (_hres : ∃ p ∈ props, p.getParser.isSome = true)
    (_hunres : ∃ p ∈ props, p.getParser.isSome = false)
    (hfail : options.fail_unimplemented = false)
    (hok : ∀ n r, ∃ v, tryParse n r = Except.ok v) :
    ∃ m : SerializedMap V,
      EventSer.serialize record (Except.ok props) options tryParse = Except.ok m
      ∧ m.declared_len = (props.filter (fun p => p.getParser.isSome)).length
      ∧ m.entries.map Prod.fst
          = (props.filter (fun p => p.getParser.isSome)).map Property.name
      ∧ m.entries.length
          = (props.filter (fun p => p.getParser.isSome)).length := by
  obtain ⟨es, hes, hmap⟩ := serEntries_ok record props tryParse hok
  have hlen : es.length
      = (props.filter (fun p => p.getParser.isSome)).length := by
    have := congrArg List.length hmap
    simpa using this
  refine ⟨SerializedMap.mk
    ((props.filter (fun p => p.getParser.isSome)).length) es,
    ?_, rfl, hmap, hlen⟩
  simp only [EventSer.serialize, hfail, countResolvable_false_ok, hes,
    Except.bind, Except.map]

/-- Witness for C1: one resolvable field and one unresolvable
(counted-string) field, a constant successful oracle. -/
theorem C1_fields_block_skips_unresolvable_witness :
    ∃ m : SerializedMap Nat,
      EventSer.serialize (EventRecord.mk 8)
        (Except.ok
          [Property.mk ("A") (PropertyInfo.Value TdhInType.InTypeUInt32
            (TdhOutType.OutTypeOther 0)),
           Property.mk ("B") (PropertyInfo.Value TdhInType.InTypeCountedString
            (TdhOutType.OutTypeOther 0))])
        EventSerializerOptions.default (fun _ _ => Except.ok 0) = Except.ok m
      ∧ m.declared_len
          = (([Property.mk ("A") (PropertyInfo.Value TdhInType.InTypeUInt32
              (TdhOutType.OutTypeOther 0)),
             Property.mk ("B") (PropertyInfo.Value TdhInType.InTypeCountedString
              (TdhOutType.OutTypeOther 0))].filter
              (fun p => p.getParser.isSome)).length)
      ∧ m.entries.map Prod.fst
          = (([Property.mk ("A") (PropertyInfo.Value TdhInType.InTypeUInt32
              (TdhOutType.OutTypeOther 0)),
             Property.mk ("B") (PropertyInfo.Value TdhInType.InTypeCountedString
              (TdhOutType.OutTypeOther 0))].filter
              (fun p => p.getParser.isSome)).map Property.name)
      ∧ m.entries.length
          = (([Property.mk ("A") (PropertyInfo.Value TdhInType.InTypeUInt32
              (TdhOutType.OutTypeOther 0)),
             Property.mk ("B") (PropertyInfo.Value TdhInType.InTypeCountedString
              (TdhOutType.OutTypeOther 0))].filter
              (fun p => p.getParser.isSome)).length) :=
  C1_fields_block_skips_unresolvable (EventRecord.mk 8)
    [Property.mk ("A") (PropertyInfo.Value TdhInType.InTypeUInt32
      (TdhOutType.OutTypeOther 0)),
     Property.mk ("B") (PropertyInfo.Value TdhInType.InTypeCountedString
      (TdhOutType.OutTypeOther 0))]
    EventSerializerOptions.default (fun _ _ => Except.ok 0)
    (by decide) (by decide) rfl (fun n r => ⟨0, rfl⟩)

/-- C2: over a field list whose first strategy-less field is `p`, the
event-fields block with `fail_unimplemented` set fails with the
`unimplMsg` error, which spells out the field's name, its `in_type` and
`out_type`, and for arrays also the count. -/
theorem C2_fields_block_fail_unimplemented_error {V : Type}
    (record : EventRecord) (pre post : List Property) (p : Property)
    (options : EventSerializerOptions)
    (tryParse : String → ReqType → Except String V)
    (hfail : options.fail_unimplemented = true)
    (hpre : ∀ q ∈ pre, q.getParser.isSome = true)
    (hp : p.getParser = none) :
    EventSer.serialize record (Except.ok (pre ++ p :: post)) options tryParse
        = Except.error (unimplMsg p)
    ∧ (∃ a b, unimplMsg p = a ++ p.name ++ b)
    ∧ (∀ it ot, p.info = PropertyInfo.Value it ot →
        unimplMsg p = "not implemented " ++ p.name ++
          (" in_type: " ++ reprStr it ++ " out_type: " ++ reprStr ot))
    ∧ (∀ it ot c, p.info = PropertyInfo.Array it ot c →
        unimplMsg p = "not implemented " ++ p.name ++
          (" in_type: " ++ reprStr it ++ " out_type: " ++ reprStr ot ++
            " count: " ++ reprStr c)) := by
  obtain ⟨n, info⟩ := p
  refine ⟨?_, ?_, ?_, ?_⟩
  · simp only [EventSer.serialize, hfail,
      countResolvable_true_error pre post _ hpre hp, Except.bind]
  · cases info <;> exact ⟨"not implemented ", _, rfl⟩
  · intro it ot hinfo
    cases hinfo
    rfl
  · intro it ot c hinfo
    cases hinfo
    rfl

/-- Witness for C2: a resolvable field followed by an unresolvable
counted-string field, strict options. -/
theorem C2_fields_block_fail_unimplemented_error_witness :
    EventSer.serialize (EventRecord.mk 8)
      (Except.ok
        [Property.mk ("A") (PropertyInfo.Value TdhInType.InTypeUInt32
          (TdhOutType.OutTypeOther 0)),
         Property.mk ("B") (PropertyInfo.Value TdhInType.InTypeCountedString
          (TdhOutType.OutTypeOther 0))])
      (EventSerializerOptions.mk true true false true)
      (fun (_ : String) (_ : ReqType) => Except.ok 0)
        = Except.error (unimplMsg (Property.mk ("B")
            (PropertyInfo.Value TdhInType.InTypeCountedString
              (TdhOutType.OutTypeOther 0))))
    ∧ ∃ a b, unimplMsg (Property.mk ("B")
        (PropertyInfo.Value TdhInType.InTypeCountedString
          (TdhOutType.OutTypeOther 0))) = a ++ ("B") ++ b :=
  ⟨(C2_fields_block_fail_unimplemented_error (EventRecord.mk 8)
      [Property.mk ("A") (PropertyInfo.Value TdhInType.InTypeUInt32
        (TdhOutType.OutTypeOther 0))] []
      (Property.mk ("B") (PropertyInfo.Value TdhInType.InTypeCountedString
        (TdhOutType.OutTypeOther 0)))
      (EventSerializerOptions.mk true true false true)
      (fun _ _ => Except.ok 0) rfl (by decide) rfl).1,
    (C2_fields_block_fail_unimplemented_error (EventRecord.mk 8)
      [Property.mk ("A") (PropertyInfo.Value TdhInType.InTypeUInt32
        (TdhOutType.OutTypeOther 0))] []
      (Property.mk ("B") (PropertyInfo.Value TdhInType.InTypeCountedString
        (TdhOutType.OutTypeOther 0)))
      (EventSerializerOptions.mk true true false true)
      (fun _ _ => Except.ok 0) rfl (by decide) rfl).2.1⟩

/-- C5: starting from a schema with an empty cell, any sequence of
`properties` / `try_properties` calls performs at most one underlying
parse in total; once any call has run, the cell holds the first parse's
outcome (success or failure), and every further call of either accessor
returns that memoized outcome with zero additional parses. -/
theorem C5_properties_parse_once_memoized (s : Schema) (calls : List Accessor)
    (hs : s.cached_properties = none) :
    (runCalls s calls).2 ≤ 1
    ∧ (calls ≠ [] →
        ((runCalls s calls).1).cached_properties
            = some (parseProps s.te_info.raw_props)
        ∧ (Schema.try_properties (runCalls s calls).1).1
            = parseProps s.te_info.raw_props
        ∧ (Schema.try_properties (runCalls s calls).1).2.2 = 0
        ∧ (Schema.properties (runCalls s calls).1).2.2.2 = 0) := by
  cases calls with
  | nil => exact ⟨Nat.zero_le 1, fun h => absurd rfl h⟩
  | cons a rest =>
    have h1 := applyAccessor_of_fresh a s hs
    have h2 := runCalls_of_cached
      { s with cached_properties := some (parseProps s.te_info.raw_props) }
      (parseProps s.te_info.raw_props) rfl rest
    have hrun : runCalls s (a :: rest)
        = ({ s with cached_properties := some (parseProps s.te_info.raw_props) }, 1) := by
      simp [runCalls, h1, h2]
    refine ⟨?_, fun _ => ⟨?_, ?_, ?_, ?_⟩⟩
    · rw [hrun]
    · rw [hrun]
    · rw [hrun]
      rfl
    · rw [hrun]
      rfl
    · rw [hrun]
      cases hr : parseProps s.te_info.raw_props with
      | error e =>
        rcases e with ⟨w⟩
        simp [Schema.properties, Schema.try_properties, hr]
      | ok l =>
        simp [Schema.properties, Schema.try_properties, hr]

/-- Witness for C5: a fresh schema and a mixed sequence of three calls. -/
theorem C5_properties_parse_once_memoized_witness :
    (runCalls (Schema.mk (TraceEventInfo.mk 1 2 3 []) none)
        [Accessor.props, Accessor.tryProps, Accessor.props]).2 ≤ 1
    ∧ ([Accessor.props, Accessor.tryProps, Accessor.props]
          ≠ ([] : List Accessor) →
        ((runCalls (Schema.mk (TraceEventInfo.mk 1 2 3 []) none)
            [Accessor.props, Accessor.tryProps, Accessor.props]).1).cached_properties
            = some (parseProps (Schema.mk (TraceEventInfo.mk 1 2 3 []) none).te_info.raw_props)
        ∧ (Schema.try_properties (runCalls (Schema.mk (TraceEventInfo.mk 1 2 3 []) none)
            [Accessor.props, Accessor.tryProps, Accessor.props]).1).1
            = parseProps (Schema.mk (TraceEventInfo.mk 1 2 3 []) none).te_info.raw_props
        ∧ (Schema.try_properties (runCalls (Schema.mk (TraceEventInfo.mk 1 2 3 []) none)
            [Accessor.props, Accessor.tryProps, Accessor.props]).1).2.2 = 0
        ∧ (Schema.properties (runCalls (Schema.mk (TraceEventInfo.mk 1 2 3 []) none)
            [Accessor.props, Accessor.tryProps, Accessor.props]).1).2.2.2 = 0) :=
  C5_properties_parse_once_memoized (Schema.mk (TraceEventInfo.mk 1 2 3 []) none)
    [Accessor.props, Accessor.tryProps, Accessor.props] rfl

/-- C6: on a schema whose cell is empty, the lenient accessor
`properties` returns the empty list and logs a diagnostic when the
field-list parse fails, and returns the parsed ordered list (with no
diagnostic) when it succeeds. -/
theorem C6_lenient_accessor_empty_on_failure (s : Schema)
    (hs : s.cached_properties = none) :
    (∀ e, parseProps s.te_info.raw_props = Except.error e →
      (s.properties.1 = [] ∧ s.properties.2.1 = true))
    ∧ (∀ l, parseProps s.te_info.raw_props = Except.ok l →
      (s.properties.1 = l ∧ s.properties.2.1 = false)) := by
  constructor
  · intro e he
    rcases e with ⟨w⟩
    constructor <;> simp [Schema.properties, Schema.try_properties, hs, he]
  · intro l hl
    constructor <;> simp [Schema.properties, Schema.try_properties, hs, hl]

/-- Witness for C6: a schema whose parse fails on an unimplemented type,
and a schema whose parse succeeds with one property. -/
theorem C6_lenient_accessor_empty_on_failure_witness :
    ((Schema.mk (TraceEventInfo.mk 1 2 3
        [Except.error (PropertyError.UnimplementedType ("Reserved"))])
        none).properties.1 = []
      ∧ (Schema.mk (TraceEventInfo.mk 1 2 3
        [Except.error (PropertyError.UnimplementedType ("Reserved"))])
        none).properties.2.1 = true)
    ∧ ((Schema.mk (TraceEventInfo.mk 1 2 3
        [Except.ok (Property.mk ("A") (PropertyInfo.Value
          TdhInType.InTypeUInt32 (TdhOutType.OutTypeOther 0)))])
        none).properties.1
        = [Property.mk ("A") (PropertyInfo.Value TdhInType.InTypeUInt32
            (TdhOutType.OutTypeOther 0))]
      ∧ (Schema.mk (TraceEventInfo.mk 1 2 3
        [Except.ok (Property.mk ("A") (PropertyInfo.Value
          TdhInType.InTypeUInt32 (TdhOutType.OutTypeOther 0)))])
        none).properties.2.1 = false) :=
  ⟨(C6_lenient_accessor_empty_on_failure
      (Schema.mk (TraceEventInfo.mk 1 2 3
        [Except.error (PropertyError.UnimplementedType ("Reserved"))]) none)
      rfl).1 (PropertyError.UnimplementedType ("Reserved")) rfl,
    (C6_lenient_accessor_empty_on_failure
      (Schema.mk (TraceEventInfo.mk 1 2 3
        [Except.ok (Property.mk ("A") (PropertyInfo.Value
          TdhInType.InTypeUInt32 (TdhOutType.OutTypeOther 0)))]) none)
      rfl).2
      [Property.mk ("A") (PropertyInfo.Value TdhInType.InTypeUInt32
        (TdhOutType.OutTypeOther 0))] rfl⟩

end Ferrisetw
